import Mathlib

/-!
Shallow embedding of `envcreate.py` (the `virtenv` environment provisioner).

The program is a decision tree over runtime capabilities followed by
subprocess invocations.  We model:

* Python string-or-None values as `Option String`, with Python truthiness
  (`None` and the empty string are falsy);
* the ambient interpreter state (`venv` importable, `ensurepip` importable,
  the `sys.real_prefix` sentinel, `sys.version_info`, `sys.executable`,
  `os.name`, the absolute path of the module file) as a `Runtime` record;
* the environment's responses to effectful calls (the result of the
  in-process `venv` builder's base build, and the results of the various
  subprocesses the program may spawn) as a `World` oracle record;
* outcomes as an `Outcome` type: normal return, `sys.exit(code)`, or a
  propagating Python exception (`PyError`).  The spec's `ConfigurationError`
  corresponds to the code's `EnvironmentError` raise, and the spec's
  `ProcessError` to `subprocess.CalledProcessError` (non-zero child exit
  from `check_call`) and `OSError` (child could not start);
* each effectful function also yields the list of subprocess commands it
  actually spawned, so "exactly one subprocess is spawned" is statable.
-/

/-- A Python value appearing in a subprocess argument list: a string, or
`None` (which `subprocess.call` rejects with `TypeError`). -/
inductive PyValue where
  | str (s : String)
  | pyNone
  deriving DecidableEq, Repr

/-- Python exceptions that the program can raise or propagate. -/
inductive PyError where
  | environmentError (msg : String)
  | calledProcessError (returncode : Int)
  | oSError
  | typeError
  deriving DecidableEq, Repr

/-- How a function invocation ends: normal return, process termination via
`sys.exit`, or an uncaught exception. -/
inductive Outcome where
  | returned
  | exited (code : Int)
  | raised (e : PyError)
  deriving DecidableEq, Repr

/-- The operating system's answer to an attempt to run one subprocess:
either the child could not be started at all, or it ran and returned an
exit code. -/
inductive SubprocResult where
  | failedToStart
  | ret (code : Int)
  deriving DecidableEq, Repr

/-- Python truthiness of a string-or-None value: `None` and `''` are falsy. -/
def pyTruthy : Option String → Bool
  | none => false
  | some s => !(s == "")

/-- The underlying string of a string-or-None value (meaningful only when
the value is truthy). -/
def pyStr : Option String → String
  | none => ""
  | some s => s

/-- Inject a string-or-None value into a subprocess argument list. -/
def pyVal : Option String → PyValue
  | none => PyValue.pyNone
  | some s => PyValue.str s

/-- Check that a command list contains only strings; `subprocess` refuses
any other element with `TypeError`. -/
def allStrings : List PyValue → Option (List String)
  | [] => some []
  | PyValue.str s :: rest => (allStrings rest).map (fun l => s :: l)
  | PyValue.pyNone :: _ => none

/-- Ambient interpreter state read by the program through `sys`, `os` and
the module-import machinery. -/
structure Runtime where
  /-- `import venv` succeeded, i.e. the module-level `venv` is not `None`. -/
  venvAvailable : Bool
  /-- `import ensurepip` succeeds inside `_is_venv_usable`. -/
  ensurepipImports : Bool
  /-- the sentinel attribute `sys.real_prefix` exists. -/
  realPrefixPresent : Bool
  /-- `sys.version_info >= (3, 3)` (only affects a progress message). -/
  pyVersionGE33 : Bool
  /-- `sys.executable`. -/
  sysExecutable : String
  /-- `os.name`. -/
  osName : String
  /-- `os.path.abspath(__file__)`. -/
  thisFileAbs : String
  deriving Repr

/-- Oracle for the effectful calls the program can make. -/
structure World where
  /-- result of the base environment build performed by `venv.EnvBuilder`
  before the `post_setup` hook runs. -/
  baseBuild : Except PyError Unit
  /-- result of the pip-upgrade subprocess run by `post_setup`. -/
  upgradeRes : SubprocResult
  /-- result of the external `virtualenv.py` subprocess. -/
  toolRes : SubprocResult
  /-- result of the self-delegation subprocess. -/
  delegateRes : SubprocResult
  /-- `context.env_exe`: the new environment's interpreter path. -/
  envExe : String
  deriving Repr

/-- `subprocess.call(cmd)`: `TypeError` if any element is `None` (nothing
spawned), `OSError` if the child cannot start (nothing spawned), otherwise
the child's return code together with the one spawned command. -/
def subprocess_call (cmd : List PyValue) (res : SubprocResult) :
    Except PyError Int × List (List String) :=
  match allStrings cmd with
  | none => (Except.error PyError.typeError, [])
  | some scmd =>
    match res with
    | SubprocResult.failedToStart => (Except.error PyError.oSError, [])
    | SubprocResult.ret code => (Except.ok code, [scmd])

/-- `subprocess.check_call(cmd)`: like `subprocess.call`, but a non-zero
return code is converted into `CalledProcessError`. -/
def subprocess_check_call (cmd : List PyValue) (res : SubprocResult) :
    Except PyError Unit × List (List String) :=
  match subprocess_call cmd res with
  | (Except.ok code, t) =>
    (if code == 0 then Except.ok () else Except.error (PyError.calledProcessError code), t)
  | (Except.error e, t) => (Except.error e, t)

/-- The command `post_setup` runs to upgrade setuptools, pip and wheel
inside the new environment. -/
def upgradeCmd (env_exe : String) : List String :=
  [env_exe, "-m", "pip", "install",
   "--upgrade", "--disable-pip-version-check", "--quiet",
   "setuptools", "pip", "wheel"]

/-- `_EnvBuilder.post_setup`: runs the upgrade subprocess, inspects the
return code only to decide which progress line to print, and returns
normally either way (a `subprocess.call` exception still propagates). -/
def post_setup (env_exe : String) (res : SubprocResult) :
    Except PyError Unit × List String :=
  match subprocess_call ((upgradeCmd env_exe).map PyValue.str) res with
  | (Except.ok returncode, _) =>
    if returncode == 0 then (Except.ok (), ["done"]) else (Except.ok (), [""])
  | (Except.error e, _) => (Except.error e, [])

/-- The keyword arguments `create_venv` passes to `_EnvBuilder`. -/
structure BuilderConfig where
  prompt : Option String
  system_site_packages : Bool
  symlinks : Bool
  with_pip : Bool
  deriving DecidableEq, Repr

/-- The whole effect of `builder.create(env_dir)` as observed by
`create_venv`: the base build, then the `post_setup` hook. -/
def builderCreate (w : World) : Except PyError Unit :=
  match w.baseBuild with
  | Except.error e => Except.error e
  | Except.ok _ => (post_setup w.envExe w.upgradeRes).1

/-- `create_venv(env_dir, system_site_packages, prompt)`: constructs the
builder with its literal keyword arguments and runs it on `env_dir`.
Returns the constructed configuration and the build outcome. -/
def create_venv (rt : Runtime) (w : World) (env_dir : String)
    (system_site_packages : Bool) (prompt : Option String) :
    BuilderConfig × Except PyError Unit :=
  (⟨prompt, system_site_packages, rt.osName != "nt", true⟩, builderCreate w)

/-- `create_virtualenv(virtualenv_py, env_dir, system, prompt)`: raises
`EnvironmentError` when no script path is supplied, otherwise builds the
tool command and runs it through `subprocess.check_call`. -/
def create_virtualenv (rt : Runtime) (w : World) (virtualenv_py : Option String)
    (env_dir : String) (system : Bool) (prompt : Option String) :
    Except PyError Unit × List (List String) :=
  if !(pyTruthy virtualenv_py) then
    (Except.error (PyError.environmentError "virtualenv.py not available"), [])
  else
    let cmd := [rt.sysExecutable, pyStr virtualenv_py, env_dir]
      ++ (if system then ["--system-site-packages"] else [])
      ++ (if pyTruthy prompt then ["--prompt", pyStr prompt] else [])
    subprocess_check_call (cmd.map PyValue.str) w.toolRes

/-- `_is_venv_usable()`: the mechanism-selection procedure.  Returns the
decision together with the progress message printed, which identifies the
check that decided. -/
def _is_venv_usable (rt : Runtime) : Bool × String :=
  if !rt.venvAvailable then
    if rt.pyVersionGE33 then (false, "venv not available, falling back to virtualenv")
    else (false, "Using virtualenv")
  else if !rt.ensurepipImports then
    (false, "venv without ensurepip is unuseful, falling back to virtualenv")
  else if !rt.realPrefixPresent then (true, "Using venv")
  else (false, "venv breaks when nesting in virtualenv, falling back to virtualenv")

/-- Map the result of a Python call that returns `None` on success into an
`Outcome` for the enclosing function. -/
def outcomeOf : Except PyError Unit → Outcome
  | Except.ok _ => Outcome.returned
  | Except.error e => Outcome.raised e

/-- `_create_with_this(env_dir, system, prompt, virtualenv_py)`: dispatch
between the built-in builder, the external tool, and the
no-usable-mechanism failure (`print` + `sys.exit(1)`). -/
def _create_with_this (rt : Runtime) (w : World) (env_dir : String)
    (system : Bool) (prompt : Option String) (virtualenv_py : Option String) :
    Outcome × List (List String) :=
  if (_is_venv_usable rt).1 then
    (outcomeOf (create_venv rt w env_dir system prompt).2, [])
  else if pyTruthy virtualenv_py then
    match create_virtualenv rt w virtualenv_py env_dir system prompt with
    | (r, t) => (outcomeOf r, t)
  else
    (Outcome.exited 1, [])

/-- Python `s.endswith(suffix)`, evaluated on the character lists. -/
def pyEndsWith (s suffix : String) : Bool :=
  List.isSuffixOf suffix.data s.data

/-- Python `s[:1]`: the first character of the string (or the empty string). -/
def pyTake1 (s : String) : String :=
  String.mk (s.data.take 1)

/-- `_create_with_python(python, env_dir, system, prompt, virtualenv_py)`:
build the self-delegation command (including the `this_file[:1]`
computation for `.pyc` module files and the unconditional `prompt`
argument) and terminate via `sys.exit(subprocess.call(cmd))`. -/
def _create_with_python (rt : Runtime) (w : World) (python : String)
    (env_dir : String) (system : Bool) (prompt : Option String)
    (virtualenv_py : Option String) : Outcome × List (List String) :=
  let this_file :=
    if pyEndsWith rt.thisFileAbs ".pyc" then pyTake1 rt.thisFileAbs else rt.thisFileAbs
  let cmd : List PyValue :=
    [PyValue.str python, PyValue.str this_file, PyValue.str env_dir,
     PyValue.str "--prompt", pyVal prompt]
    ++ (if system then [PyValue.str "--system"] else [])
    ++ (if pyTruthy virtualenv_py then
          [PyValue.str "--virtualenv.py", PyValue.str (pyStr virtualenv_py)]
        else [])
  match subprocess_call cmd w.delegateRes with
  | (Except.ok code, t) => (Outcome.exited code, t)
  | (Except.error e, t) => (Outcome.raised e, t)

/-- `create(python, env_dir, system, prompt, virtualenv_py)`: the module
entry point.  In-process when `python` is falsy or equal to
`sys.executable`, delegation otherwise. -/
def create (rt : Runtime) (w : World) (python : Option String)
    (env_dir : String) (system : Bool) (prompt : Option String)
    (virtualenv_py : Option String) : Outcome × List (List String) :=
  if !(pyTruthy python) || (python == some rt.sysExecutable) then
    _create_with_this rt w env_dir system prompt virtualenv_py
  else
    _create_with_python rt w (pyStr python) env_dir system prompt virtualenv_py

/-- Whether an outcome is a `sys.exit` termination. -/
def isExited : Outcome → Bool
  | Outcome.exited _ => true
  | _ => false

/-- A command built entirely from strings is accepted by `subprocess`
unchanged. -/
theorem allStrings_map_str (l : List String) :
    allStrings (l.map PyValue.str) = some l := by
  induction l with
  | nil => rfl
  | cons a t ih => simp [allStrings, ih]

/-- A runtime in which the built-in builder is usable. -/
def rtUsable : Runtime := ⟨true, true, false, true, "py", "posix", "/f.py"⟩

/-- A runtime lacking the `venv` module. -/
def rtNoVenv : Runtime := ⟨false, true, false, true, "py", "posix", "/f.py"⟩

/-- A runtime whose module file is a compiled `.pyc` file. -/
def rtPyc : Runtime :=
  ⟨true, true, false, true, "/usr/bin/python3", "posix", "/home/user/envcreate.pyc"⟩

/-- A world in which every effect succeeds with exit code 0. -/
def wAll0 : World :=
  ⟨Except.ok (), SubprocResult.ret 0, SubprocResult.ret 0, SubprocResult.ret 0, "e"⟩

/-- C1: the mechanism-selection procedure chooses the built-in builder
exactly when `venv` is available, `ensurepip` imports, and the
`sys.real_prefix` sentinel is absent; each earlier check rejects
regardless of the later ones, and a present sentinel always rejects. -/
theorem mechanism_selection_order (rt : Runtime) :
    ((_is_venv_usable rt).1 = true ↔
      (rt.venvAvailable = true ∧ rt.ensurepipImports = true ∧
        rt.realPrefixPresent = false))
    ∧ (rt.venvAvailable = false → (_is_venv_usable rt).1 = false)
    ∧ (rt.venvAvailable = true → rt.ensurepipImports = false →
        (_is_venv_usable rt).1 = false)
    ∧ (rt.realPrefixPresent = true → (_is_venv_usable rt).1 = false) := by
  obtain ⟨va, ei, rp, v33, exe, osn, tf⟩ := rt
  cases va <;> cases ei <;> cases rp <;> cases v33 <;> simp [_is_venv_usable]

/-- C1 witness: with the sentinel present (and everything else available)
the built-in builder is rejected. -/
theorem mechanism_selection_order_witness :
    (_is_venv_usable ⟨true, true, true, true, "py", "posix", "/f.py"⟩).1 = false :=
  (mechanism_selection_order ⟨true, true, true, true, "py", "posix", "/f.py"⟩).2.2.2 rfl

/-- C2: `create` builds in-process (via `_create_with_this`, consulting no
self-delegation subprocess) exactly when `python` is `None`, empty, or the
running interpreter; otherwise it delegates via `_create_with_python`. -/
theorem create_dispatch (rt : Runtime) (w : World) (env_dir : String)
    (system : Bool) (prompt virtualenv_py : Option String) :
    (create rt w none env_dir system prompt virtualenv_py
      = _create_with_this rt w env_dir system prompt virtualenv_py)
    ∧ (create rt w (some "") env_dir system prompt virtualenv_py
      = _create_with_this rt w env_dir system prompt virtualenv_py)
    ∧ (create rt w (some rt.sysExecutable) env_dir system prompt virtualenv_py
      = _create_with_this rt w env_dir system prompt virtualenv_py)
    ∧ (∀ p : String, p ≠ "" → p ≠ rt.sysExecutable →
        create rt w (some p) env_dir system prompt virtualenv_py
          = _create_with_python rt w p env_dir system prompt virtualenv_py)
    ∧ (∀ r1 r2 : SubprocResult,
        create rt ⟨w.baseBuild, w.upgradeRes, w.toolRes, r1, w.envExe⟩
            none env_dir system prompt virtualenv_py
          = create rt ⟨w.baseBuild, w.upgradeRes, w.toolRes, r2, w.envExe⟩
              none env_dir system prompt virtualenv_py) := by
  refine ⟨by simp [create, pyTruthy], by simp [create, pyTruthy], ?_, ?_, ?_⟩
  · simp [create, pyTruthy]
  · intro p hp he
    simp [create, pyTruthy, pyStr, hp, he]
  · intro r1 r2
    simp [create, pyTruthy, _create_with_this, create_venv, builderCreate,
      create_virtualenv, _create_with_python]

/-- C2 witness: a different interpreter string goes through the delegation
path. -/
theorem create_dispatch_witness :
    create rtUsable wAll0 (some "otherpy") "D" false none none
      = _create_with_python rtUsable wAll0 "otherpy" "D" false none none :=
  (create_dispatch rtUsable wAll0 "D" false none none).2.2.2.1 "otherpy"
    (by decide) (by decide)

/-- C3: when the built-in builder is rejected, `_create_with_this` exits
with status 1 if no tool path was supplied, and otherwise takes the
external-tool path. -/
theorem no_usable_mechanism (rt : Runtime) (w : World) (env_dir : String)
    (system : Bool) (prompt virtualenv_py : Option String)
    (hrej : (_is_venv_usable rt).1 = false) :
    (pyTruthy virtualenv_py = false →
      _create_with_this rt w env_dir system prompt virtualenv_py
        = (Outcome.exited 1, []))
    ∧ (pyTruthy virtualenv_py = true →
      _create_with_this rt w env_dir system prompt virtualenv_py
        = (outcomeOf (create_virtualenv rt w virtualenv_py env_dir system prompt).1,
           (create_virtualenv rt w virtualenv_py env_dir system prompt).2)) := by
  constructor <;> intro h <;> simp [_create_with_this, hrej, h]

/-- C3 witness: no `venv` module and no tool path yields exit status 1. -/
theorem no_usable_mechanism_witness :
    _create_with_this rtNoVenv wAll0 "D" false none none = (Outcome.exited 1, []) :=
  (no_usable_mechanism rtNoVenv wAll0 "D" false none none rfl).1 rfl

/-- C4: evaluation of the delegation path at the failing inputs.  When the
module file is a `.pyc`, the spawned command's script argument is the first
character of the path (`this_file[:1]`), not the program; and when `prompt`
is `None`, `subprocess.call` raises `TypeError` and no subprocess is
spawned at all. -/
theorem delegation_code_eval :
    (_create_with_python rtPyc wAll0 "/usr/bin/python2" "D" false (some "p") none
      = (Outcome.exited 0, [["/usr/bin/python2", "/", "D", "--prompt", "p"]]))
    ∧ (_create_with_python rtPyc wAll0 "/usr/bin/python2" "D" false none none
      = (Outcome.raised PyError.typeError, [])) := by
  constructor <;> rfl

/-- C5: the package-upgrade step is non-fatal: whenever the upgrade
subprocess runs and returns any code `c` (zero or not), `post_setup`
returns normally, and when the base build succeeded the whole built-in
creation still returns success. -/
theorem upgrade_failure_nonfatal (env_exe : String) (c : Int) (rt : Runtime)
    (env_dir : String) (system : Bool) (prompt virtualenv_py : Option String)
    (tr dr : SubprocResult) :
    ((post_setup env_exe (SubprocResult.ret c)).1 = Except.ok ())
    ∧ ((_is_venv_usable rt).1 = true →
      (_create_with_this rt ⟨Except.ok (), SubprocResult.ret c, tr, dr, env_exe⟩
          env_dir system prompt virtualenv_py).1 = Outcome.returned) := by
  have hps : (post_setup env_exe (SubprocResult.ret c)).1 = Except.ok () := by
    simp only [post_setup, subprocess_call, allStrings_map_str]
    cases hc : (c == 0) <;> simp [hc]
  refine ⟨hps, fun hu => ?_⟩
  simp [_create_with_this, hu, create_venv, builderCreate, outcomeOf, hps]

/-- C5 witness: a failing upgrade (exit code 7) still yields overall
success on a usable runtime. -/
theorem upgrade_failure_nonfatal_witness :
    (_create_with_this rtUsable
        ⟨Except.ok (), SubprocResult.ret 7, SubprocResult.ret 0, SubprocResult.ret 0, "e"⟩
        "D" false none none).1 = Outcome.returned :=
  (upgrade_failure_nonfatal "e" 7 rtUsable "D" false none none
    (SubprocResult.ret 0) (SubprocResult.ret 0)).2 rfl

/-- C6: the external-tool path raises `EnvironmentError` (the spec's
ConfigurationError) exactly when no tool path is supplied; with a tool
path it raises `CalledProcessError` (the spec's ProcessError) exactly when
the tool subprocess exits non-zero, and that failure propagates through
`_create_with_this`. -/
theorem external_tool_errors (rt : Runtime) (bb : Except PyError Unit)
    (ur dr : SubprocResult) (ee : String) (virtualenv_py : Option String)
    (env_dir : String) (system : Bool) (prompt : Option String) (code : Int) :
    (pyTruthy virtualenv_py = false →
      (create_virtualenv rt ⟨bb, ur, SubprocResult.ret code, dr, ee⟩
          virtualenv_py env_dir system prompt).1
        = Except.error (PyError.environmentError "virtualenv.py not available"))
    ∧ (pyTruthy virtualenv_py = true →
      (((create_virtualenv rt ⟨bb, ur, SubprocResult.ret code, dr, ee⟩
            virtualenv_py env_dir system prompt).1
          = Except.error (PyError.calledProcessError code)) ↔ code ≠ 0)
      ∧ (code = 0 →
        (create_virtualenv rt ⟨bb, ur, SubprocResult.ret code, dr, ee⟩
            virtualenv_py env_dir system prompt).1 = Except.ok ()))
    ∧ ((_is_venv_usable rt).1 = false → pyTruthy virtualenv_py = true → code ≠ 0 →
      (_create_with_this rt ⟨bb, ur, SubprocResult.ret code, dr, ee⟩
          env_dir system prompt virtualenv_py).1
        = Outcome.raised (PyError.calledProcessError code)) := by
  refine ⟨fun hf => ?_, fun ht => ⟨?_, fun hc => ?_⟩, fun hrej ht hc => ?_⟩
  · simp [create_virtualenv, hf]
  · simp only [create_virtualenv, ht, Bool.not_true, Bool.false_eq_true, if_false,
      subprocess_check_call, subprocess_call, allStrings_map_str]
    cases hc : (code == 0) <;> simp_all
  · subst hc
    cases hs : system <;> cases hp : pyTruthy prompt <;>
      simp [create_virtualenv, ht, subprocess_check_call, subprocess_call,
        allStrings, hs, hp]
  · have hc0 : (code == 0) = false := by simpa using hc
    cases hs : system <;> cases hp : pyTruthy prompt <;>
      simp [_create_with_this, hrej, ht, create_virtualenv, subprocess_check_call,
        subprocess_call, allStrings, hs, hp, hc0, outcomeOf]

/-- C6 witness: tool path supplied and tool exits 5: `CalledProcessError 5`
propagates out of `_create_with_this` on a runtime without `venv`. -/
theorem external_tool_errors_witness :
    (_create_with_this rtNoVenv
        ⟨Except.ok (), SubprocResult.ret 0, SubprocResult.ret 5, SubprocResult.ret 0, "e"⟩
        "D" false none (some "vp.py")).1
      = Outcome.raised (PyError.calledProcessError 5) :=
  (external_tool_errors rtNoVenv (Except.ok ()) (SubprocResult.ret 0)
    (SubprocResult.ret 0) "e" (some "vp.py") "D" false none 5).2.2 rfl rfl (by decide)

/-- C7: `create_venv` constructs the builder with symlinks exactly when the
platform is not Windows, installer bootstrap enabled, the requested
system-site-packages flag, and the given prompt. -/
theorem builtin_builder_config (rt : Runtime) (w : World) (env_dir : String)
    (system : Bool) (prompt : Option String) :
    ((create_venv rt w env_dir system prompt).1
      = ⟨prompt, system, rt.osName != "nt", true⟩)
    ∧ ((create_venv rt w env_dir system prompt).1.symlinks = true ↔ rt.osName ≠ "nt") := by
  refine ⟨rfl, ?_⟩
  simp [create_venv]

/-- `subprocess.check_call` can fail with `TypeError`, `OSError` or
`CalledProcessError`, but never with `EnvironmentError`. -/
theorem check_call_no_env_error (cmd : List PyValue) (res : SubprocResult)
    (msg : String) :
    (subprocess_check_call cmd res).1 ≠ Except.error (PyError.environmentError msg) := by
  unfold subprocess_check_call subprocess_call
  cases allStrings cmd with
  | none => simp
  | some scmd =>
    cases res with
    | failedToStart => simp
    | ret code => cases hc : (code == 0) <;> simp [hc]

/-- `outcomeOf` maps a non-`e` result to a non-`raised e` outcome. -/
theorem outcomeOf_ne_raised (x : Except PyError Unit) (e : PyError)
    (h : x ≠ Except.error e) : outcomeOf x ≠ Outcome.raised e := by
  cases x with
  | ok u => simp [outcomeOf]
  | error e2 =>
    simp only [outcomeOf]
    intro hcon
    injection hcon with he
    exact h (by rw [he])

/-- C8: with a (truthy) tool path, the external-tool subprocess command is
exactly the running interpreter, the tool path, and the directory, with
`--system-site-packages` appended iff the system flag holds and
`--prompt <prompt>` appended iff the prompt is truthy. -/
theorem external_tool_command (rt : Runtime) (bb : Except PyError Unit)
    (ur dr : SubprocResult) (ee : String) (vp : String) (hvp : vp ≠ "")
    (env_dir : String) (system : Bool) (prompt : Option String) (code : Int) :
    (create_virtualenv rt ⟨bb, ur, SubprocResult.ret code, dr, ee⟩
        (some vp) env_dir system prompt).2
      = [[rt.sysExecutable, vp, env_dir]
          ++ (if system then ["--system-site-packages"] else [])
          ++ (if pyTruthy prompt then ["--prompt", pyStr prompt] else [])] := by
  have hvpb : (vp == "") = false := by simpa using hvp
  rcases prompt with _ | p
  · cases hs : system <;> cases hc : (code == 0) <;>
      simp [create_virtualenv, pyTruthy, pyStr, hvpb, subprocess_check_call,
        subprocess_call, allStrings, hs, hc]
  · cases hpe : (p == "") <;> cases hs : system <;> cases hc : (code == 0) <;>
      simp [create_virtualenv, pyTruthy, pyStr, hvpb, hpe, subprocess_check_call,
        subprocess_call, allStrings, hs, hc]

/-- C8 witness: with the system flag set and an empty (falsy) prompt, only
`--system-site-packages` is forwarded. -/
theorem external_tool_command_witness :
    (create_virtualenv rtUsable
        ⟨Except.ok (), SubprocResult.ret 0, SubprocResult.ret 3, SubprocResult.ret 0, "e"⟩
        (some "virtualenv.py") "D" true (some "")).2
      = [["py", "virtualenv.py", "D", "--system-site-packages"]] := by
  have h := external_tool_command rtUsable (Except.ok ()) (SubprocResult.ret 0)
    (SubprocResult.ret 0) "e" "virtualenv.py" (by decide) "D" true (some "") 3
  simpa [pyTruthy, rtUsable] using h

/-- C9: under `_create_with_this` the tool-missing `EnvironmentError`
branch of `create_virtualenv` is unreachable: a truthy tool path never
yields that error, and a rejected built-in builder never makes
`_create_with_this` raise it. -/
theorem config_error_unreachable (rt : Runtime) (w : World) (env_dir : String)
    (system : Bool) (prompt virtualenv_py : Option String) (msg : String) :
    (pyTruthy virtualenv_py = true →
      (create_virtualenv rt w virtualenv_py env_dir system prompt).1
        ≠ Except.error (PyError.environmentError msg))
    ∧ ((_is_venv_usable rt).1 = false →
      (_create_with_this rt w env_dir system prompt virtualenv_py).1
        ≠ Outcome.raised (PyError.environmentError msg)) := by
  have h1 : pyTruthy virtualenv_py = true →
      (create_virtualenv rt w virtualenv_py env_dir system prompt).1
        ≠ Except.error (PyError.environmentError msg) := by
    intro hv
    simp only [create_virtualenv, hv, Bool.not_true, Bool.false_eq_true, if_false]
    exact check_call_no_env_error _ _ _
  refine ⟨h1, fun hrej => ?_⟩
  cases hvb : pyTruthy virtualenv_py with
  | false => simp [_create_with_this, hrej, hvb]
  | true =>
    have h2 := outcomeOf_ne_raised _ (PyError.environmentError msg) (h1 hvb)
    simpa [_create_with_this, hrej, hvb] using h2

/-- C9 witness: rejected builder without a tool path never surfaces the
tool-missing error either. -/
theorem config_error_unreachable_witness :
    (_create_with_this rtNoVenv wAll0 "D" false none none).1
      ≠ Outcome.raised (PyError.environmentError "virtualenv.py not available") :=
  (config_error_unreachable rtNoVenv wAll0 "D" false none none
    "virtualenv.py not available").2 rfl

/-- C10 counterexample: when the self-delegation subprocess cannot start,
`_create_with_python` does not terminate via `sys.exit` with a child code:
it propagates `OSError` instead (still not a normal return). -/
theorem delegation_exit_counterexample :
    ((_create_with_python rtUsable
        ⟨Except.ok (), SubprocResult.ret 0, SubprocResult.ret 0,
         SubprocResult.failedToStart, "e"⟩
        "py2" "D" false (some "x") none).1
      = Outcome.raised PyError.oSError)
    ∧ (isExited (_create_with_python rtUsable
        ⟨Except.ok (), SubprocResult.ret 0, SubprocResult.ret 0,
         SubprocResult.failedToStart, "e"⟩
        "py2" "D" false (some "x") none).1 = false) := by
  constructor <;> rfl

/-- C10 (amended): `_create_with_python` never returns normally; whenever
the delegation child is actually spawned and completes with code `c`
(which requires a string prompt), the whole process terminates via
`sys.exit(c)`, even for `c = 0`; and the in-process path does return
normally on success. -/
theorem delegation_never_returns (rt : Runtime) (w : World) (python env_dir : String)
    (system : Bool) (prompt virtualenv_py : Option String) :
    ((_create_with_python rt w python env_dir system prompt virtualenv_py).1
      ≠ Outcome.returned)
    ∧ (∀ (c : Int) (ps : String) (bb : Except PyError Unit) (ur tr : SubprocResult)
        (ee : String),
        (_create_with_python rt ⟨bb, ur, tr, SubprocResult.ret c, ee⟩
            python env_dir system (some ps) virtualenv_py).1 = Outcome.exited c)
    ∧ ((_is_venv_usable rt).1 = true →
      ∀ (c2 : Int) (tr dr : SubprocResult) (ee : String),
        (create rt ⟨Except.ok (), SubprocResult.ret c2, tr, dr, ee⟩
            none env_dir system prompt virtualenv_py).1 = Outcome.returned) := by
  refine ⟨?_, fun c ps bb ur tr ee => ?_, fun hu c2 tr dr ee => ?_⟩
  · simp only [_create_with_python]
    rcases h : subprocess_call _ w.delegateRes with ⟨r, t⟩
    cases r <;> simp
  · rcases prompt with _ | p <;>
      cases hs : system <;> cases hv : pyTruthy virtualenv_py <;>
        simp [_create_with_python, subprocess_call, allStrings, pyVal, hs, hv]
  · have hps : (post_setup ee (SubprocResult.ret c2)).1 = Except.ok () := by
      simp only [post_setup, subprocess_call, allStrings_map_str]
      cases hc : (c2 == 0) <;> simp [hc]
    simp [create, pyTruthy, _create_with_this, hu, create_venv, builderCreate,
      outcomeOf, hps]

/-- C10 witness: a successfully delegated build with child code 0 still
ends in `sys.exit(0)`, not a normal return. -/
theorem delegation_never_returns_witness :
    (_create_with_python rtUsable wAll0 "py2" "D" false (some "x") none).1
      = Outcome.exited 0 :=
  (delegation_never_returns rtUsable wAll0 "py2" "D" false (some "x") none).2.1
    0 "x" (Except.ok ()) (SubprocResult.ret 0) (SubprocResult.ret 0) "e"
